import Mathlib

/-!
Verification of the voting-eligibility and results-aggregation core of the
alx-polly polling application.

The development shallowly embeds:

* the persisted entity model of `supabase_schema.sql` (tables `polls`,
  `poll_options`, `votes`, `poll_views`, the uniqueness constraints and the
  `ON DELETE CASCADE` behaviour);
* the stored procedures `can_user_vote` and `get_poll_stats`, and the
  `poll_results` view with its `vote_percentage` column;
* the application operations `createPoll` and `submitVote` from
  `lib/supabase.ts`, and the handlers `POST /api/polls`,
  `POST /api/polls/[id]/vote` and `DELETE /api/polls/[id]/vote`.

UUIDs are modelled as natural numbers drawn from a per-store counter
(`Store.nextId`), timestamps as natural numbers, and the authenticated caller
as an `Option Nat` (the result of the upstream `AuthSecurity.validateServerAuth`
call, which is outside this core).  Database round trips that can only fail for
infrastructure reasons are modelled as total; the one external failure the
claims depend on (the options `INSERT` of poll creation failing after the poll
row was inserted) is exposed as an explicit boolean parameter.  Operations that
read state and later insert are given a two-store form (`submitVote2`,
`routeVotePost2`): the checks read the first store and the insert runs against
the second, which models the non-atomic check-then-act gap; the sequential
forms instantiate both stores with the same state.
-/

/-- Row of the `polls` table (`supabase_schema.sql`, table 1).  `created_at` /
`updated_at` and `voter_ip`-style audit columns play no role in any claim and
are omitted. -/
structure Poll where
  id : Nat
  title : String
  description : Option String
  created_by : Nat
  expires_at : Option Nat
  is_active : Bool
  allow_multiple_votes : Bool
  is_anonymous : Bool
  max_votes_per_user : Nat
deriving DecidableEq

/-- Row of the `poll_options` table (`supabase_schema.sql`, table 2). -/
structure PollOption where
  id : Nat
  poll_id : Nat
  option_text : String
  option_order : Nat
deriving DecidableEq

/-- Row of the `votes` table (`supabase_schema.sql`, table 3).  `user_id` is
nullable (`ON DELETE SET NULL`, anonymous voting). -/
structure Vote where
  id : Nat
  poll_id : Nat
  option_id : Nat
  user_id : Option Nat
deriving DecidableEq

/-- Row of the `poll_views` analytics table (`supabase_schema.sql`, table 4). -/
structure PollView where
  id : Nat
  poll_id : Nat
  user_id : Option Nat
deriving DecidableEq

/-- The persisted store: the four tables plus the id generator that stands in
for `gen_random_uuid()`. -/
structure Store where
  nextId : Nat
  polls : List Poll
  options : List PollOption
  votes : List Vote
  views : List PollView
deriving DecidableEq

def emptyStore : Store := ⟨0, [], [], [], []⟩

/-- Lookup `SELECT * FROM polls WHERE id = poll_uuid` (primary key). -/
def findPoll (s : Store) (pid : Nat) : Option Poll :=
  s.polls.find? (fun p => p.id == pid)

/-- Lookup `SELECT * FROM poll_options WHERE id = option_uuid` (primary key). -/
def findOption (s : Store) (oid : Nat) : Option PollOption :=
  s.options.find? (fun o => o.id == oid)

/-- The count `SELECT COUNT(*) FROM votes WHERE poll_id = poll_uuid AND user_id = user_uuid`
(the quota read of `can_user_vote`; a SQL `NULL` `user_id` never equals
`user_uuid`). -/
def userVoteCount (s : Store) (pid uid : Nat) : Nat :=
  (s.votes.filter (fun v => v.poll_id == pid && v.user_id == some uid)).length

/-- Whether `expires_at IS NOT NULL AND expires_at < NOW()` for evaluation time
`now` (strict comparison, as in both `can_user_vote` and the vote route). -/
def isExpired (p : Poll) (now : Nat) : Bool :=
  match p.expires_at with
  | some e => decide (e < now)
  | none => false

/-- The stored procedure `can_user_vote(poll_uuid, user_uuid)`
(`supabase_schema.sql` lines 245-276): fails closed on a missing poll, then
checks `is_active`, expiry, and the per-user vote quota. -/
def can_user_vote (s : Store) (now : Nat) (pollId userId : Nat) : Bool :=
  match findPoll s pollId with
  | none => false
  | some p =>
    if p.is_active = false then false
    else if isExpired p now then false
    else if p.max_votes_per_user ≤ userVoteCount s pollId userId then false
    else true

/-- C1 — `can_user_vote` returns `false` exactly when the poll is absent, its
active flag is false, its expiration timestamp is set and strictly before the
evaluation time, or the user's existing vote count on the poll has reached
`max_votes_per_user`; in all other cases it returns `true`. -/
theorem can_user_vote_spec (s : Store) (now : Nat) (pid uid : Nat) :
    can_user_vote s now pid uid = false ↔
      (findPoll s pid = none ∨
        ∃ p, findPoll s pid = some p ∧
          (p.is_active = false ∨
            (∃ e, p.expires_at = some e ∧ e < now) ∨
            p.max_votes_per_user ≤ userVoteCount s pid uid)) := by
  unfold can_user_vote
  cases hp : findPoll s pid with
  | none => simp [hp]
  | some p =>
    simp only [hp, Option.some.injEq]
    constructor
    · intro h
      refine Or.inr ⟨p, rfl, ?_⟩
      by_cases ha : p.is_active = false
      · exact Or.inl ha
      · by_cases he : isExpired p now = true
        · refine Or.inr (Or.inl ?_)
          unfold isExpired at he
          cases hx : p.expires_at with
          | none => rw [hx] at he; simp at he
          | some e => rw [hx] at he; simp at he; exact ⟨e, rfl, he⟩
        · by_cases hq : p.max_votes_per_user ≤ userVoteCount s pid uid
          · exact Or.inr (Or.inr hq)
          · rw [if_neg ha, if_neg he, if_neg hq] at h
            simp at h
    · rintro (h | ⟨q, rfl, hcase⟩)
      · exact absurd h (by simp)
      · split_ifs with h1 h2 h3
        · rfl
        · rfl
        · rfl
        · exfalso
          rcases hcase with ha | ⟨e, he, helt⟩ | hquota
          · exact h1 ha
          · exact absurd (by unfold isExpired; rw [he]; simpa : isExpired p now = true) h2
          · exact h3 hquota

/-- Error classes reported by the store on an `INSERT`, matching the Postgres
constraint kinds the schema declares (unique key, foreign key, `CHECK`). -/
inductive DbError where
  | uniqueViolation
  | fkViolation
  | checkViolation
deriving DecidableEq

/-- Postgres `UNIQUE (poll_id, user_id, option_id)` semantics: two `NULL`
`user_id` values never conflict, so only rows with equal non-null voters
collide. -/
def sameVoter : Option Nat → Option Nat → Bool
  | some a, some b => a == b
  | _, _ => false

/-- Insertion `INSERT INTO votes (poll_id, option_id, user_id) VALUES ...` under the
schema constraints: both foreign keys must resolve, and the unique key
`(poll_id, user_id, option_id)` must not already be present.  Error code
`23505` of the source corresponds to `DbError.uniqueViolation`. -/
def insertVoteRow (s : Store) (pid oid : Nat) (uid : Option Nat) :
    Except DbError (Vote × Store) :=
  if (findPoll s pid).isNone then .error .fkViolation
  else if (findOption s oid).isNone then .error .fkViolation
  else if s.votes.any (fun v =>
      v.poll_id == pid && v.option_id == oid && sameVoter v.user_id uid) then
    .error .uniqueViolation
  else
    let v : Vote := ⟨s.nextId, pid, oid, uid⟩
    .ok (v, { s with nextId := s.nextId + 1, votes := s.votes ++ [v] })

/-- Error cases of `submitVote` in `lib/supabase.ts`, one per distinct error
string the function returns (infrastructure failures of the eligibility RPC
are not modelled). -/
inductive VoteFailure where
  | notLoggedIn
  | notEligible
  | duplicateOption
  | insertFailed
deriving DecidableEq

/-- The exact user-facing error strings of `submitVote`. -/
def voteFailureMessage : VoteFailure → String
  | .notLoggedIn => "You must be logged in to vote"
  | .notEligible => "You are not eligible to vote on this poll"
  | .duplicateOption => "You have already voted for this option"
  | .insertFailed => "Failed to submit vote"

inductive SubmitResult where
  | ok (v : Vote)
  | err (e : VoteFailure)
deriving DecidableEq

/-- The function `submitVote` from `lib/supabase.ts` (lines 509-577), with the check-then-act
gap explicit: reads (`auth.getUser`, the `can_user_vote` RPC) run against
`sCheck`, while the `INSERT` runs against `sIns`.  A unique-constraint
violation (code `23505`) is mapped to the duplicate-option error; any other
insert error to the generic failure. -/
def submitVote2 (sCheck sIns : Store) (now : Nat) (user : Option Nat)
    (pid oid : Nat) : SubmitResult × Store :=
  match user with
  | none => (.err .notLoggedIn, sIns)
  | some uid =>
    if can_user_vote sCheck now pid uid = false then (.err .notEligible, sIns)
    else
      match insertVoteRow sIns pid oid (some uid) with
      | .error .uniqueViolation => (.err .duplicateOption, sIns)
      | .error _ => (.err .insertFailed, sIns)
      | .ok (v, s') => (.ok v, s')

/-- The function `submitVote` run sequentially (no concurrent writer between the
eligibility read and the insert). -/
def submitVote (s : Store) (now : Nat) (user : Option Nat) (pid oid : Nat) :
    SubmitResult × Store :=
  submitVote2 s s now user pid oid

/-- Responses of `POST /api/polls/[id]/vote`
(`app/api/polls/[id]/vote/route.ts`), one per distinct response the handler
produces after the rate-limit / UUID-format / JSON glue (which is upstream of
this core and takes no part in any claim). -/
inductive RouteVoteResult where
  | authRequired
  | pollNotFound
  | pollInactive
  | pollExpired
  | invalidOption
  | alreadyVotedPoll
  | alreadyVotedOption
  | submitFailed
  | created (v : Vote)
deriving DecidableEq

/-- The HTTP status the vote route attaches to each response. -/
def routeVoteStatus : RouteVoteResult → Nat
  | .authRequired => 401
  | .pollNotFound => 404
  | .pollInactive => 400
  | .pollExpired => 400
  | .invalidOption => 400
  | .alreadyVotedPoll => 400
  | .alreadyVotedOption => 400
  | .submitFailed => 500
  | .created _ => 201

/-- The error strings of the vote route (the `created` case carries the vote
instead of a message). -/
def routeVoteMessage : RouteVoteResult → String
  | .authRequired => "Authentication required to vote"
  | .pollNotFound => "Poll not found"
  | .pollInactive => "This poll is no longer active"
  | .pollExpired => "This poll has expired"
  | .invalidOption => "Invalid option for this poll"
  | .alreadyVotedPoll => "You have already voted on this poll"
  | .alreadyVotedOption => "You have already voted for this option"
  | .submitFailed => "Failed to submit vote"
  | .created _ => "Vote submitted successfully"

/-- Handler `POST /api/polls/[id]/vote` (route lines 88-270), two-store form as for
`submitVote2`.  The handler looks the poll up without an `is_active` filter and
branches on activity and expiry itself; validates that the option row exists
with `id = option_id AND poll_id = pollId`; when `allow_multiple_votes` is
false runs the prior-vote read; then the exact-option read; and maps *any*
insert error to the generic 500 response (lines 244-250 inspect no error
code).  Both duplicate reads use PostgREST `.single()` and treat error code
`PGRST116` as "no rows"; PostgREST raises `PGRST116` for zero rows *and* for
more than one row, so each guard fires exactly when one matching vote row
exists — with two or more prior rows the data is `null`, the guard falls
through, and the handler proceeds. -/
def routeVotePost2 (sCheck sIns : Store) (now : Nat) (user : Option Nat)
    (pid oid : Nat) : RouteVoteResult × Store :=
  match user with
  | none => (.authRequired, sIns)
  | some uid =>
    match findPoll sCheck pid with
    | none => (.pollNotFound, sIns)
    | some poll =>
      if poll.is_active = false then (.pollInactive, sIns)
      else if isExpired poll now then (.pollExpired, sIns)
      else if (sCheck.options.find? (fun o =>
          o.id == oid && o.poll_id == pid)).isNone then (.invalidOption, sIns)
      else if !poll.allow_multiple_votes &&
          (sCheck.votes.filter (fun v =>
            v.poll_id == pid && v.user_id == some uid)).length == 1 then
        (.alreadyVotedPoll, sIns)
      else if (sCheck.votes.filter (fun v =>
          v.poll_id == pid && v.option_id == oid &&
            v.user_id == some uid)).length == 1 then
        (.alreadyVotedOption, sIns)
      else
        match insertVoteRow sIns pid oid (some uid) with
        | .ok (v, s') => (.created v, s')
        | .error _ => (.submitFailed, sIns)

/-- The vote route run sequentially. -/
def routeVotePost (s : Store) (now : Nat) (user : Option Nat) (pid oid : Nat) :
    RouteVoteResult × Store :=
  routeVotePost2 s s now user pid oid

/-- Handler `DELETE /api/polls/[id]/vote` (route lines 330-399): after auth, deletes
every vote of the caller matching the poll and option (at most one exists by
the unique key). -/
def routeVoteDelete (s : Store) (user : Option Nat) (pid oid : Nat) :
    Bool × Store :=
  match user with
  | none => (false, s)
  | some uid =>
    (true, { s with votes := s.votes.filter (fun v =>
      !(v.poll_id == pid && v.option_id == oid && v.user_id == some uid)) })

/-- Insertion `INSERT INTO polls ...` under the schema constraints of table 1:
`CHECK (length(title) >= 3)` and `CHECK (max_votes_per_user > 0)`.  A `none`
`maxVotes` models an insert payload that omits the column, so the schema
`DEFAULT 1` applies; both creation paths set `is_active` to `true`
explicitly. -/
def insertPollRow (s : Store) (title : String) (description : Option String)
    (created_by : Nat) (expires_at : Option Nat) (allowMulti isAnon : Bool)
    (maxVotes : Option Nat) : Except DbError (Poll × Store) :=
  let m := maxVotes.getD 1
  if title.length < 3 then .error .checkViolation
  else if m = 0 then .error .checkViolation
  else
    let p : Poll :=
      ⟨s.nextId, title, description, created_by, expires_at, true, allowMulti,
        isAnon, m⟩
    .ok (p, { s with nextId := s.nextId + 1, polls := s.polls ++ [p] })

/-- The option rows both creation paths build: text at index `i` becomes the
row with `option_order = i`. -/
def mkOptionRows (startId pid : Nat) (texts : List String) : List PollOption :=
  texts.enum.map (fun it => ⟨startId + it.1, pid, it.2, it.1⟩)

/-- The multi-row `INSERT INTO poll_options ...` of poll creation, atomic as a
single statement: it fails as a whole if the poll foreign key is missing, any
text violates `CHECK (length(option_text) >= 1)`, or any `(poll_id,
option_order)` pair collides with an existing row; otherwise all rows are
appended. -/
def insertOptionRows (s : Store) (pid : Nat) (texts : List String) :
    Except DbError (List PollOption × Store) :=
  if (findPoll s pid).isNone then .error .fkViolation
  else if texts.any (fun t => t.length == 0) then .error .checkViolation
  else if (List.range texts.length).any (fun i =>
      s.options.any (fun o => o.poll_id == pid && o.option_order == i)) then
    .error .uniqueViolation
  else
    let rows := mkOptionRows s.nextId pid texts
    .ok (rows, { s with nextId := s.nextId + texts.length,
                        options := s.options ++ rows })

/-- Deletion `DELETE FROM polls WHERE id = pid` with the schema's `ON DELETE CASCADE`
chain: the poll's options go, votes referencing the poll or one of those
options go, and the poll's view records go. -/
def deletePollCascade (s : Store) (pid : Nat) : Store :=
  let deadOpts := s.options.filter (fun o => o.poll_id == pid)
  { s with
    polls := s.polls.filter (fun p => !(p.id == pid))
    options := s.options.filter (fun o => !(o.poll_id == pid))
    votes := s.votes.filter (fun v =>
      !(v.poll_id == pid) && !(deadOpts.any (fun o => o.id == v.option_id)))
    views := s.views.filter (fun w => !(w.poll_id == pid)) }

/-- The form data `CreatePollFormData` of `lib/types.ts` (timestamps as naturals). -/
structure CreatePollData where
  title : String
  description : Option String
  options : List String
  expires_at : Option Nat
  allow_multiple_votes : Bool
  is_anonymous : Bool
  max_votes_per_user : Nat
deriving DecidableEq

inductive CreateError where
  | notLoggedIn
  | pollInsertFailed
  | optionsInsertFailed
deriving DecidableEq

inductive CreateResult where
  | ok (p : Poll) (opts : List PollOption)
  | err (e : CreateError)
deriving DecidableEq

/-- The function `createPoll` from `lib/supabase.ts` (lines 100-188): after auth and the
upstream `SecurityValidator` calls (outside this core), inserts the poll row
(passing `max_votes_per_user` from the form data), then inserts the option
rows; if the options insert fails — `optionsInsertFails` injects the external
failure the source guards against — the inserted poll row is deleted again and
an error is returned. -/
def createPoll (s : Store) (user : Option Nat) (d : CreatePollData)
    (optionsInsertFails : Bool) : CreateResult × Store :=
  match user with
  | none => (.err .notLoggedIn, s)
  | some uid =>
    match insertPollRow s d.title d.description uid d.expires_at
        d.allow_multiple_votes d.is_anonymous (some d.max_votes_per_user) with
    | .error _ => (.err .pollInsertFailed, s)
    | .ok (p, s1) =>
      match (if optionsInsertFails then Except.error DbError.fkViolation
             else insertOptionRows s1 p.id d.options) with
      | .error _ => (.err .optionsInsertFailed, deletePollCascade s1 p.id)
      | .ok (opts, s2) => (.ok p opts, s2)

/-- The JSON body accepted by `POST /api/polls`; `max_votes_per_user` may be
present in the request but the handler never reads it. -/
structure CreatePollBody where
  title : String
  description : String
  options : List String
  expires_at : Option Nat
  allow_multiple_votes : Bool
  is_anonymous : Bool
  max_votes_per_user : Option Nat
deriving DecidableEq

inductive RouteCreateResult where
  | authRequired
  | missingFields
  | createFailed
  | optionsFailed
  | created (p : Poll)
deriving DecidableEq

/-- Handler `POST /api/polls` (`app/api/polls/route.ts` lines 96-213): after auth and
the required-field check, inserts the poll row — the insert payload (lines
144-152) carries title, description, creator, expiry, `is_active`,
`allow_multiple_votes` and `is_anonymous` but *omits* `max_votes_per_user`,
so the schema default applies — then the option rows, deleting the poll again
if the options insert fails. -/
def routePollsPost (s : Store) (user : Option Nat) (b : CreatePollBody)
    (optionsInsertFails : Bool) : RouteCreateResult × Store :=
  match user with
  | none => (.authRequired, s)
  | some uid =>
    if b.title.length == 0 || b.description.length == 0 then (.missingFields, s)
    else
      match insertPollRow s b.title (some b.description) uid b.expires_at
          b.allow_multiple_votes b.is_anonymous none with
      | .error _ => (.createFailed, s)
      | .ok (p, s1) =>
        match (if optionsInsertFails then Except.error DbError.fkViolation
               else insertOptionRows s1 p.id b.options) with
        | .error _ => (.optionsFailed, deletePollCascade s1 p.id)
        | .ok (_, s2) => (.created p, s2)

/-- One element of the `options` array built by `get_poll_stats`. -/
structure OptionStat where
  option_id : Nat
  option_text : String
  vote_count : Nat
deriving DecidableEq

/-- The JSON object `get_poll_stats` returns. -/
structure PollStats where
  total_votes : Nat
  total_views : Nat
  unique_voters : Nat
  options : List OptionStat
deriving DecidableEq

/-- The options of one poll, in table order:
`SELECT * FROM poll_options WHERE poll_id = pid`. -/
def pollOptionsOf (s : Store) (pid : Nat) : List PollOption :=
  s.options.filter (fun o => o.poll_id == pid)

/-- The count `SELECT COUNT(*) FROM votes WHERE poll_id = pid` (the `vote_counts`
subquery of `get_poll_stats`, with `COALESCE(..., 0)`). -/
def pollVoteTotal (s : Store) (pid : Nat) : Nat :=
  (s.votes.filter (fun v => v.poll_id == pid)).length

/-- Per-option count of `get_poll_stats`: votes grouped by `option_id` after
filtering on `poll_id = pid`, `COALESCE`d to 0 for options without votes. -/
def optionVoteCount (s : Store) (pid oid : Nat) : Nat :=
  (s.votes.filter (fun v => v.poll_id == pid && v.option_id == oid)).length

/-- The `ORDER BY po.option_order` of the `json_agg` call. -/
def optLe (a b : PollOption) : Prop := a.option_order ≤ b.option_order

instance : DecidableRel optLe := fun a b => Nat.decLe a.option_order b.option_order

instance : IsTotal PollOption optLe :=
  ⟨fun a b => Nat.le_total a.option_order b.option_order⟩

instance : IsTrans PollOption optLe :=
  ⟨fun _ _ _ h h' => Nat.le_trans h h'⟩

/-- The stored procedure `get_poll_stats(poll_uuid)` (`supabase_schema.sql`
lines 279-325): total vote count, view count, distinct non-null voter count,
and one `{option_id, option_text, vote_count}` entry per option of the poll,
ordered by `option_order`, with absent counts coalesced to 0. -/
def get_poll_stats (s : Store) (pid : Nat) : PollStats :=
  { total_votes := pollVoteTotal s pid
    total_views := (s.views.filter (fun w => w.poll_id == pid)).length
    unique_voters :=
      ((s.votes.filter (fun v => v.poll_id == pid)).filterMap
        (fun v => v.user_id)).dedup.length
    options := (List.insertionSort optLe (pollOptionsOf s pid)).map
      (fun o => ⟨o.id, o.option_text, optionVoteCount s pid o.id⟩) }

/-- Rounding `ROUND(x, 2)` on a nonnegative numeric value: half up to two decimal
places. -/
def round2 (x : ℚ) : ℚ := (round (x * 100) : ℤ) / 100

/-- The per-(poll, option) vote count of the `poll_results` view: the view
joins `votes` on `po.id = v.option_id` alone (schema line 214), so it counts
every vote for the option regardless of the vote's own `poll_id`. -/
def viewOptionVoteCount (s : Store) (oid : Nat) : Nat :=
  (s.votes.filter (fun v => v.option_id == oid)).length

/-- The `vote_percentage` column of the `poll_results` view (schema lines
208-211): `ROUND((COUNT(v.id)::DECIMAL / NULLIF(total_votes.count, 0)) * 100,
2)`.  When the poll has no votes the left-joined `total_votes.count` is SQL
`NULL` (and `NULLIF` keeps a 0 `NULL` too), so the whole expression is `NULL`,
modelled as `none`. -/
def vote_percentage (s : Store) (pid oid : Nat) : Option ℚ :=
  if pollVoteTotal s pid = 0 then none
  else some (round2
    ((viewOptionVoteCount s oid : ℚ) / (pollVoteTotal s pid : ℚ) * 100))

/-- Well-formedness of the id generator: every persisted id, and every
persisted reference to a poll, is below `nextId`.  Holds for any store built
from `emptyStore` by the operations, and makes freshly generated ids distinct
from everything persisted. -/
def idsFresh (s : Store) : Bool :=
  s.polls.all (fun p => p.id < s.nextId) &&
  s.options.all (fun o => o.id < s.nextId && o.poll_id < s.nextId) &&
  s.votes.all (fun v => v.poll_id < s.nextId) &&
  s.views.all (fun w => w.poll_id < s.nextId)

/-- The store states reachable from the empty store through the modelled
operations of the application: the two poll-creation paths, the two
vote-submission paths, and vote retraction. -/
inductive Reachable : Store → Prop where
  | init : Reachable emptyStore
  | createLib (s : Store) (u : Option Nat) (d : CreatePollData) (f : Bool)
      (h : Reachable s) : Reachable (createPoll s u d f).2
  | createApi (s : Store) (u : Option Nat) (b : CreatePollBody) (f : Bool)
      (h : Reachable s) : Reachable (routePollsPost s u b f).2
  | voteLib (s : Store) (now : Nat) (u : Option Nat) (pid oid : Nat)
      (h : Reachable s) : Reachable (submitVote s now u pid oid).2
  | voteApi (s : Store) (now : Nat) (u : Option Nat) (pid oid : Nat)
      (h : Reachable s) : Reachable (routeVotePost s now u pid oid).2
  | retract (s : Store) (u : Option Nat) (pid oid : Nat)
      (h : Reachable s) : Reachable (routeVoteDelete s u pid oid).2

lemma filter_append_single {α : Type} (l : List α) (f : α → Bool) (a : α)
    (h : ∀ x ∈ l, f x = true) (ha : f a = false) : (l ++ [a]).filter f = l := by
  rw [List.filter_append, List.filter_eq_self.mpr h]
  simp [ha]

/-- A title shorter than 3 characters violates the `polls` check constraint. -/
lemma insertPollRow_err_title (s : Store) (t : String) (de : Option String)
    (cb : Nat) (ea : Option Nat) (am ia : Bool) (mv : Option Nat)
    (h1 : t.length < 3) :
    insertPollRow s t de cb ea am ia mv = .error .checkViolation := by
  unfold insertPollRow
  simp [h1]

/-- An effective `max_votes_per_user` of 0 violates its check constraint. -/
lemma insertPollRow_err_max (s : Store) (t : String) (de : Option String)
    (cb : Nat) (ea : Option Nat) (am ia : Bool) (mv : Option Nat)
    (h2 : mv.getD 1 = 0) :
    insertPollRow s t de cb ea am ia mv = .error .checkViolation := by
  unfold insertPollRow
  by_cases h1 : t.length < 3 <;> simp [h1, h2]

/-- Shape of a successful poll-row insert. -/
lemma insertPollRow_ok_eq (s : Store) (t : String) (de : Option String)
    (cb : Nat) (ea : Option Nat) (am ia : Bool) (mv : Option Nat)
    (h1 : ¬ t.length < 3) (h2 : ¬ mv.getD 1 = 0) :
    insertPollRow s t de cb ea am ia mv =
      .ok (⟨s.nextId, t, de, cb, ea, true, am, ia, mv.getD 1⟩,
        { s with nextId := s.nextId + 1,
                 polls := s.polls ++
                   [⟨s.nextId, t, de, cb, ea, true, am, ia, mv.getD 1⟩] }) := by
  unfold insertPollRow
  simp [h1, h2]

/-- A successful option-rows insert leaves the poll, vote and view tables
untouched. -/
lemma insertOptionRows_ok {s : Store} {pid : Nat} {texts : List String}
    {rows : List PollOption} {s1 : Store}
    (h : insertOptionRows s pid texts = .ok (rows, s1)) :
    s1.polls = s.polls ∧ s1.votes = s.votes ∧ s1.views = s.views := by
  unfold insertOptionRows at h
  by_cases h1 : (findPoll s pid).isNone
  · simp [h1] at h
  · by_cases h2 : texts.any (fun t => t.length == 0)
    · simp [h1, h2] at h
    · by_cases h3 : (List.range texts.length).any (fun i =>
          s.options.any (fun o => o.poll_id == pid && o.option_order == i))
      · simp [h1, h2, h3] at h
      · simp [h1, h2, h3] at h
        obtain ⟨h4, h5⟩ := h
        subst h5
        exact ⟨rfl, rfl, rfl⟩

/-- Deleting the just-inserted poll from a fresh store restores every table. -/
lemma cascade_restore (s : Store) (p : Poll) (h : idsFresh s = true)
    (hid : p.id = s.nextId) :
    deletePollCascade { s with nextId := s.nextId + 1, polls := s.polls ++ [p] }
        s.nextId =
      { s with nextId := s.nextId + 1 } := by
  unfold idsFresh at h
  simp only [Bool.and_eq_true, List.all_eq_true, decide_eq_true_eq] at h
  obtain ⟨⟨⟨hpolls, hopts⟩, hvotes⟩, hviews⟩ := h
  have hdead : List.filter (fun o => o.poll_id == s.nextId) s.options = [] := by
    rw [List.filter_eq_nil_iff]
    intro o ho
    simpa using Nat.ne_of_lt (hopts o ho).2
  unfold deletePollCascade
  simp only
  congr 1
  · exact filter_append_single _ _ _
      (fun q hq => by simpa using Nat.ne_of_lt (hpolls q hq)) (by simp [hid])
  · exact List.filter_eq_self.mpr
      (fun o ho => by simpa using Nat.ne_of_lt (hopts o ho).2)
  · rw [hdead]
    exact List.filter_eq_self.mpr
      (fun v hv => by simpa using Nat.ne_of_lt (hvotes v hv))
  · exact List.filter_eq_self.mpr
      (fun w hw => by simpa using Nat.ne_of_lt (hviews w hw))

/-- C9 — when poll creation inserts the poll row but the subsequent options
insert fails, both creation paths (`createPoll` of `lib/supabase.ts` and
`POST /api/polls`) delete the poll row again and return an error, leaving the
poll, option and vote tables exactly as before the call: no poll without
options is persisted by a failed creation. -/
theorem pollCreation_rollback (s : Store) (user : Option Nat)
    (d : CreatePollData) (b : CreatePollBody) (fail : Bool)
    (h : idsFresh s = true) :
    ((createPoll s user d fail).1 = .err .optionsInsertFailed →
      (createPoll s user d fail).2.polls = s.polls ∧
      (createPoll s user d fail).2.options = s.options ∧
      (createPoll s user d fail).2.votes = s.votes) ∧
    ((routePollsPost s user b fail).1 = .optionsFailed →
      (routePollsPost s user b fail).2.polls = s.polls ∧
      (routePollsPost s user b fail).2.options = s.options ∧
      (routePollsPost s user b fail).2.votes = s.votes) := by
  constructor
  · intro hres
    cases user with
    | none => simp [createPoll] at hres
    | some uid =>
      by_cases ht : d.title.length < 3
      · simp [createPoll, insertPollRow_err_title s d.title d.description uid
          d.expires_at d.allow_multiple_votes d.is_anonymous
          (some d.max_votes_per_user) ht] at hres
      · by_cases hm : (Option.some d.max_votes_per_user).getD 1 = 0
        · simp [createPoll, insertPollRow_err_max s d.title d.description uid
            d.expires_at d.allow_multiple_votes d.is_anonymous
            (some d.max_votes_per_user) hm] at hres
        · have heq := insertPollRow_ok_eq s d.title d.description uid
            d.expires_at d.allow_multiple_votes d.is_anonymous
            (some d.max_votes_per_user) ht hm
          simp only [createPoll, heq] at hres ⊢
          cases fail with
          | true =>
            simp only [if_pos rfl] at hres ⊢
            rw [cascade_restore s _ h rfl]
            exact ⟨rfl, rfl, rfl⟩
          | false =>
            simp only [Bool.false_eq_true, if_false] at hres ⊢
            split at hres
            next e2 he2 =>
              rw [cascade_restore s _ h rfl]
              exact ⟨rfl, rfl, rfl⟩
            next pr2 he2 => simp at hres
  · intro hres
    cases user with
    | none => simp [routePollsPost] at hres
    | some uid =>
      by_cases hflds : (b.title.length == 0 || b.description.length == 0) = true
      · simp [routePollsPost, hflds] at hres
      · by_cases ht : b.title.length < 3
        · simp [routePollsPost, hflds, insertPollRow_err_title s b.title
            (some b.description) uid b.expires_at b.allow_multiple_votes
            b.is_anonymous none ht] at hres
        · have heq := insertPollRow_ok_eq s b.title (some b.description) uid
            b.expires_at b.allow_multiple_votes b.is_anonymous none ht
            (by simp)
          simp only [routePollsPost, hflds, Bool.false_eq_true, if_false,
            heq] at hres ⊢
          cases fail with
          | true =>
            simp only [if_pos rfl] at hres ⊢
            rw [cascade_restore s _ h rfl]
            exact ⟨rfl, rfl, rfl⟩
          | false =>
            simp only [Bool.false_eq_true, if_false] at hres ⊢
            split at hres
            next e2 he2 =>
              rw [cascade_restore s _ h rfl]
              exact ⟨rfl, rfl, rfl⟩
            next pr2 he2 => simp at hres

/-- Concrete data for exercising the rollback: valid titles and options, with
the options insert failing externally. -/
def rollbackData : CreatePollData :=
  ⟨"Best language", some "pick one", ["OCaml", "Lean"], none, false, false, 1⟩

def rollbackBody : CreatePollBody :=
  ⟨"Best language", "pick one", ["OCaml", "Lean"], none, false, false, some 3⟩

/-- C10 — every poll successfully created through `POST /api/polls` is stored
with `max_votes_per_user = 1`: the handler's insert payload never includes that
column for any request body, so the schema default of 1 applies, even when the
body sets `allow_multiple_votes` or supplies a `max_votes_per_user` value. -/
theorem routeCreate_max_votes_default (s : Store) (uid : Nat)
    (b : CreatePollBody) (fail : Bool) (p : Poll) (s' : Store)
    (h : routePollsPost s (some uid) b fail = (.created p, s')) :
    p.max_votes_per_user = 1 ∧ p ∈ s'.polls := by
  by_cases hflds : (b.title.length == 0 || b.description.length == 0) = true
  · simp [routePollsPost, hflds] at h
  · by_cases ht : b.title.length < 3
    · simp [routePollsPost, hflds, insertPollRow_err_title s b.title
        (some b.description) uid b.expires_at b.allow_multiple_votes
        b.is_anonymous none ht] at h
    · have heq := insertPollRow_ok_eq s b.title (some b.description) uid
        b.expires_at b.allow_multiple_votes b.is_anonymous none ht (by simp)
      simp only [routePollsPost, hflds, Bool.false_eq_true, if_false, heq] at h
      cases fail with
      | true => simp at h
      | false =>
        simp only [Bool.false_eq_true, if_false] at h
        split at h
        next e2 he2 => simp at h
        next opts s2 he2 =>
          rw [Prod.mk.injEq] at h
          obtain ⟨hc, hs⟩ := h
          injection hc with hpc
          constructor
          · rw [← hpc]
            rfl
          · rw [← hs, (insertOptionRows_ok he2).1, ← hpc]
            simp

def defaultBody : CreatePollBody :=
  ⟨"Title ok", "desc", ["A", "B"], none, true, false, some 5⟩

def defaultPoll : Poll :=
  ⟨0, "Title ok", some "desc", 2, none, true, true, false, 1⟩

def defaultStore : Store :=
  (routePollsPost emptyStore (some 2) defaultBody false).2

theorem routeCreate_max_votes_default_witness :
    routePollsPost emptyStore (some 2) defaultBody false =
      (RouteCreateResult.created defaultPoll, defaultStore) ∧
    defaultPoll.max_votes_per_user = 1 :=
  ⟨by decide,
    (routeCreate_max_votes_default emptyStore 2 defaultBody false defaultPoll
      defaultStore (by decide)).1⟩

theorem pollCreation_rollback_witness :
    idsFresh emptyStore = true ∧
    (createPoll emptyStore (some 1) rollbackData true).1 =
      CreateResult.err CreateError.optionsInsertFailed ∧
    (createPoll emptyStore (some 1) rollbackData true).2.polls =
      emptyStore.polls :=
  ⟨by decide, by decide,
    ((pollCreation_rollback emptyStore (some 1) rollbackData rollbackBody true
      (by decide)).1 (by decide)).1⟩

lemma submitVote_not_eligible (s : Store) (now : Nat) (u pid oid : Nat)
    (h : can_user_vote s now pid u = false) :
    submitVote s now (some u) pid oid = (.err .notEligible, s) := by
  unfold submitVote submitVote2
  simp [h]

/-- An exhausted quota makes `can_user_vote` fail, whatever the other poll
fields are. -/
lemma can_user_vote_quota {s : Store} {now pid u : Nat} {p : Poll}
    (hp : findPoll s pid = some p)
    (hq : p.max_votes_per_user ≤ userVoteCount s pid u) :
    can_user_vote s now pid u = false := by
  simp only [can_user_vote, hp]
  by_cases h1 : p.is_active = false
  · simp [h1]
  · by_cases h2 : isExpired p now
    · simp [h1, h2]
    · simp [h1, h2, hq]

/-- A passing `can_user_vote` means the quota was not yet reached. -/
lemma can_user_vote_true_quota {s : Store} {now pid u : Nat} {p : Poll}
    (hp : findPoll s pid = some p) (h : can_user_vote s now pid u = true) :
    userVoteCount s pid u < p.max_votes_per_user := by
  simp only [can_user_vote, hp] at h
  by_cases h1 : p.is_active = false
  · simp [h1] at h
  · by_cases h2 : isExpired p now
    · simp [h1, h2] at h
    · by_cases h3 : p.max_votes_per_user ≤ userVoteCount s pid u
      · simp [h1, h2, h3] at h
      · exact Nat.lt_of_not_le h3

/-- Shape of a successful vote insert. -/
lemma insertVoteRow_ok {s : Store} {pid oid : Nat} {uid : Option Nat}
    {v : Vote} {s1 : Store}
    (h : insertVoteRow s pid oid uid = .ok (v, s1)) :
    v = ⟨s.nextId, pid, oid, uid⟩ ∧
      s1 = { s with
              nextId := s.nextId + 1
              votes := s.votes ++ [⟨s.nextId, pid, oid, uid⟩] } := by
  unfold insertVoteRow at h
  by_cases h1 : (findPoll s pid).isNone
  · simp [h1] at h
  · by_cases h2 : (findOption s oid).isNone
    · simp [h1, h2] at h
    · by_cases h3 : s.votes.any (fun w =>
          w.poll_id == pid && w.option_id == oid && sameVoter w.user_id uid)
      · simp [h1, h2, h3] at h
      · simp [h1, h2, h3] at h
        obtain ⟨hv, hs⟩ := h
        subst hv
        subst hs
        exact ⟨rfl, rfl⟩

/-- Appending a matching vote raises the user's count on the poll by one. -/
lemma userVoteCount_append (s : Store) (m n pid oid u : Nat) :
    userVoteCount ({ s with
        nextId := n
        votes := s.votes ++ [⟨m, pid, oid, some u⟩] } : Store) pid u =
      userVoteCount s pid u + 1 := by
  unfold userVoteCount
  rw [List.filter_append]
  simp

/-- C2 (amended) — through `submitVote`, which gates on `can_user_vote`, a
user's votes on a poll never exceed `max_votes_per_user`: once the quota is
reached any further submission is rejected as not eligible (whatever option it
targets, including one never voted for) with the store unchanged, and a
successful submission leaves the user's vote count at or below the quota.  The
`POST /api/polls/[id]/vote` route enforces no such bound (see the
counterexample). -/
theorem submitVote_quota (s : Store) (now u pid oid : Nat) (p : Poll)
    (hp : findPoll s pid = some p) :
    (p.max_votes_per_user ≤ userVoteCount s pid u →
      submitVote s now (some u) pid oid = (.err .notEligible, s)) ∧
    (∀ v s', submitVote s now (some u) pid oid = (.ok v, s') →
      userVoteCount s' pid u ≤ p.max_votes_per_user) := by
  constructor
  · intro hq
    exact submitVote_not_eligible _ _ _ _ _ (can_user_vote_quota hp hq)
  · intro v s' hok
    simp only [submitVote, submitVote2] at hok
    by_cases he : can_user_vote s now pid u = false
    · simp [he] at hok
    · rw [if_neg he] at hok
      split at hok
      · simp at hok
      · simp at hok
      · next v0 s0 hins =>
        rw [Prod.mk.injEq] at hok
        obtain ⟨hv, hs⟩ := hok
        obtain ⟨_, hshape⟩ := insertVoteRow_ok hins
        rw [← hs, hshape, userVoteCount_append]
        have hlt := can_user_vote_true_quota hp (by
          cases hcv : can_user_vote s now pid u
          · exact absurd hcv he
          · rfl)
        exact hlt

def quotaPoll : Poll := ⟨0, "Quota", none, 1, none, true, false, false, 1⟩

/-- A store where user 7 already holds one vote on poll 0 (quota 1). -/
def quotaStore : Store :=
  ⟨4, [quotaPoll], [⟨1, 0, "X", 0⟩, ⟨2, 0, "Y", 1⟩], [⟨3, 0, 1, some 7⟩], []⟩

theorem submitVote_quota_witness :
    findPoll quotaStore 0 = some quotaPoll ∧
    quotaPoll.max_votes_per_user ≤ userVoteCount quotaStore 0 7 ∧
    submitVote quotaStore 5 (some 7) 0 2 =
      (SubmitResult.err VoteFailure.notEligible, quotaStore) :=
  ⟨by decide, by decide,
    (submitVote_quota quotaStore 5 7 0 2 quotaPoll (by decide)).1 (by decide)⟩

/-- A positive per-user vote count exhibits a matching vote row. -/
lemma votes_any_of_count_pos {s : Store} {pid u : Nat}
    (h : 1 ≤ userVoteCount s pid u) :
    s.votes.any (fun v => v.poll_id == pid && v.user_id == some u) = true := by
  unfold userVoteCount at h
  rcases hf : s.votes.filter (fun v => v.poll_id == pid && v.user_id == some u)
    with _ | ⟨x, xs⟩
  · rw [hf] at h
    simp at h
  · have hx : x ∈ s.votes.filter
        (fun v => v.poll_id == pid && v.user_id == some u) := by
      rw [hf]
      exact List.mem_cons_self x xs
    obtain ⟨hmem, hpred⟩ := List.mem_filter.mp hx
    rw [List.any_eq_true]
    exact ⟨x, hmem, hpred⟩

/-- C3 (amended) — on a poll with `allow_multiple_votes = false` and
`max_votes_per_user = 1`, after one successful vote (the user's vote count on
the poll is exactly 1) every later submission by that user is rejected without
touching the store, regardless of the option targeted; the API route rejects
it with the duplicate-vote error (`You have already voted on this poll`),
while `submitVote` rejects it with the not-eligible error rather than a
duplicate-vote error.  The route's `.single()`-based guard fires exactly on
one prior vote row; within this scenario the count stays 1, since every
subsequent attempt is rejected before insertion. -/
theorem vote_after_vote_rejected (s : Store) (now u pid oid : Nat) (p : Poll)
    (hp : findPoll s pid = some p)
    (hmulti : p.allow_multiple_votes = false)
    (hmax : p.max_votes_per_user = 1)
    (hv : userVoteCount s pid u = 1) :
    submitVote s now (some u) pid oid = (.err .notEligible, s) ∧
    (p.is_active = true → isExpired p now = false →
      (s.options.find? (fun o => o.id == oid && o.poll_id == pid)).isSome →
      routeVotePost s now (some u) pid oid = (.alreadyVotedPoll, s)) := by
  constructor
  · exact submitVote_not_eligible _ _ _ _ _
      (can_user_vote_quota hp (by rw [hmax]; omega))
  · intro hact hexp hopt
    simp only [routeVotePost, routeVotePost2, hp]
    rw [if_neg (by simp [hact] : ¬ p.is_active = false)]
    rw [if_neg (by simp [hexp] : ¬ isExpired p now = true)]
    have h3 : (s.options.find? (fun o => o.id == oid && o.poll_id == pid)).isNone
        = false := by
      cases hfind : s.options.find? (fun o => o.id == oid && o.poll_id == pid)
      · rw [hfind] at hopt
        simp at hopt
      · simp
    rw [if_neg (by simp [h3])]
    have h4 : (!p.allow_multiple_votes && (s.votes.filter (fun v =>
        v.poll_id == pid && v.user_id == some u)).length == 1) = true := by
      rw [hmulti]
      simp only [Bool.not_false, Bool.true_and]
      exact beq_iff_eq.mpr hv
    rw [if_pos h4]

theorem vote_after_vote_rejected_witness :
    findPoll quotaStore 0 = some quotaPoll ∧
    userVoteCount quotaStore 0 7 = 1 ∧
    submitVote quotaStore 9 (some 7) 0 2 =
      (SubmitResult.err VoteFailure.notEligible, quotaStore) ∧
    routeVotePost quotaStore 9 (some 7) 0 2 =
      (RouteVoteResult.alreadyVotedPoll, quotaStore) := by
  refine ⟨by decide, by decide, ?_, ?_⟩
  · exact (vote_after_vote_rejected quotaStore 9 7 0 2 quotaPoll (by decide)
      (by decide) (by decide) (by decide)).1
  · exact (vote_after_vote_rejected quotaStore 9 7 0 2 quotaPoll (by decide)
      (by decide) (by decide) (by decide)).2 (by decide) (by decide) (by decide)

/-- A poll that forbids multiple votes, with options X (id 1) and Y (id 2). -/
def singleData : CreatePollData :=
  ⟨"Single poll", none, ["X", "Y"], none, false, false, 1⟩

def singleS0 : Store := (createPoll emptyStore (some 1) singleData false).2

/-- User 7 has voted for option X through the API route. -/
def singleS1 : Store := (routeVotePost singleS0 0 (some 7) 0 1).2

theorem submitVote_repeat_not_duplicate_error_cx :
    (routeVotePost singleS0 0 (some 7) 0 1).1 =
      RouteVoteResult.created ⟨3, 0, 1, some 7⟩ ∧
    userVoteCount singleS1 0 7 = 1 ∧
    submitVote singleS1 0 (some 7) 0 2 =
      (SubmitResult.err VoteFailure.notEligible, singleS1) ∧
    VoteFailure.notEligible ≠ VoteFailure.duplicateOption ∧
    voteFailureMessage VoteFailure.notEligible ≠
      voteFailureMessage VoteFailure.duplicateOption := by decide

/-- A poll that allows multiple votes with quota 2 and options A, B, C. -/
def multiData : CreatePollData :=
  ⟨"Multi poll", none, ["A", "B", "C"], none, true, false, 2⟩

def multiPoll : Poll := ⟨0, "Multi poll", none, 1, none, true, true, false, 2⟩

def multiS0 : Store := (createPoll emptyStore (some 1) multiData false).2

def multiS1 : Store := (routeVotePost multiS0 0 (some 7) 0 1).2

def multiS2 : Store := (routeVotePost multiS1 0 (some 7) 0 2).2

theorem route_vote_ignores_quota_cx :
    findPoll multiS2 0 = some multiPoll ∧
    multiPoll.allow_multiple_votes = true ∧
    multiPoll.max_votes_per_user = 2 ∧
    (routeVotePost multiS0 0 (some 7) 0 1).1 =
      RouteVoteResult.created ⟨4, 0, 1, some 7⟩ ∧
    (routeVotePost multiS1 0 (some 7) 0 2).1 =
      RouteVoteResult.created ⟨5, 0, 2, some 7⟩ ∧
    userVoteCount multiS2 0 7 = 2 ∧
    (routeVotePost multiS2 0 (some 7) 0 3).1 =
      RouteVoteResult.created ⟨6, 0, 3, some 7⟩ ∧
    userVoteCount (routeVotePost multiS2 0 (some 7) 0 3).2 0 7 = 3 := by decide

/-- Poll A with its single option A1. -/
def pollAData : CreatePollData :=
  ⟨"Poll AAA", none, ["A1"], none, false, false, 1⟩

/-- Poll B with its single option B1. -/
def pollBData : CreatePollData :=
  ⟨"Poll BBB", none, ["B1"], none, false, false, 1⟩

def mmS0 : Store := (createPoll emptyStore (some 1) pollAData false).2

def mmS1 : Store := (createPoll mmS0 (some 1) pollBData false).2

/-- User 7 submits a vote on poll A (id 0) naming poll B's option (id 3). -/
def mmS2 : Store := (submitVote mmS1 0 (some 7) 0 3).2

/-- C4 — `submitVote` performs no option-ownership validation: a submission
naming poll A and an option belonging to poll B passes the eligibility check
on poll A, and the insert succeeds because the schema's foreign keys do not
relate the vote's `poll_id` to its option's `poll_id`; a cross-poll vote row
is persisted, contradicting the function's own documented business rule
(`Option must belong to the specified poll`). -/
theorem submitVote_cross_poll_insert :
    findOption mmS1 3 = some ⟨3, 2, "B1", 0⟩ ∧
    (submitVote mmS1 0 (some 7) 0 3).1 = SubmitResult.ok ⟨4, 0, 3, some 7⟩ ∧
    Vote.mk 4 0 3 (some 7) ∈ mmS2.votes := by decide

/-- C7 (counterexample) — a reachable store (two polls created through
`createPoll`, then one cross-poll `submitVote`) in which the per-option
`vote_count` values of `get_poll_stats` for poll 0 sum to 0 while its
`total_votes` is 1. -/
theorem stats_sum_reachable_cx :
    Reachable mmS2 ∧
    (get_poll_stats mmS2 0).total_votes = 1 ∧
    ((get_poll_stats mmS2 0).options.map (fun e => e.vote_count)).sum = 0 := by
  have h0 : Reachable emptyStore := Reachable.init
  have h1 : Reachable mmS0 := Reachable.createLib emptyStore (some 1) pollAData false h0
  have h2 : Reachable mmS1 := Reachable.createLib mmS0 (some 1) pollBData false h1
  exact ⟨Reachable.voteLib mmS1 0 (some 7) 0 3 h2, by decide, by decide⟩

/-- C5 (amended) — when the vote `INSERT` of `submitVote` fails with the
store's uniqueness violation on `(poll_id, user_id, option_id)` (error code
`23505`), even though the eligibility read had passed against an earlier
snapshot, `submitVote` surfaces the duplicate-vote error — the same user-facing
message as a proactively detected duplicate — and no vote row is persisted.
The API vote route instead maps the same failure to a generic 500 response
(see the counterexample). -/
theorem unique_violation_duplicate_error (sc si : Store) (now u pid oid : Nat)
    (helig : can_user_vote sc now pid u = true)
    (hdup : insertVoteRow si pid oid (some u) = .error .uniqueViolation) :
    submitVote2 sc si now (some u) pid oid = (.err .duplicateOption, si) ∧
    voteFailureMessage .duplicateOption =
      "You have already voted for this option" := by
  constructor
  · simp only [submitVote2]
    rw [if_neg (by simp [helig]), hdup]
  · rfl

theorem unique_violation_duplicate_error_witness :
    can_user_vote singleS0 0 0 7 = true ∧
    insertVoteRow singleS1 0 1 (some 7) =
      Except.error DbError.uniqueViolation ∧
    submitVote2 singleS0 singleS1 0 (some 7) 0 1 =
      (SubmitResult.err VoteFailure.duplicateOption, singleS1) :=
  ⟨by decide, by rfl,
    (unique_violation_duplicate_error singleS0 singleS1 0 7 0 1 (by decide)
      (by rfl)).1⟩

/-- C5 (counterexample) — the vote route's insert-error handler inspects no
error code: a uniqueness violation at insert time (the checks passed against
the earlier snapshot `singleS0`, the insert ran against `singleS1` where the
triple already exists) is answered with the generic 500
`Failed to submit vote`, not the duplicate-vote error. -/
theorem route_unique_violation_generic_cx :
    insertVoteRow singleS1 0 1 (some 7) =
      Except.error DbError.uniqueViolation ∧
    routeVotePost2 singleS0 singleS1 0 (some 7) 0 1 =
      (RouteVoteResult.submitFailed, singleS1) ∧
    routeVoteStatus RouteVoteResult.submitFailed = 500 ∧
    routeVoteMessage RouteVoteResult.submitFailed = "Failed to submit vote" ∧
    RouteVoteResult.submitFailed ≠ RouteVoteResult.alreadyVotedOption :=
  ⟨by rfl, by decide, by decide, by decide, by decide⟩

/-- Referential consistency of votes with options: every vote's option exists
and belongs to the vote's poll.  The API vote route preserves this; `submitVote`
does not (see `submitVote_cross_poll_insert`). -/
def votesConsistent (s : Store) : Bool :=
  s.votes.all (fun v => s.options.any (fun o =>
    o.id == v.option_id && o.poll_id == v.poll_id))

lemma sum_map_add {α : Type} (l : List α) (f g : α → Nat) :
    (l.map (fun a => f a + g a)).sum = (l.map f).sum + (l.map g).sum := by
  induction l with
  | nil => simp
  | cons x xs ih =>
    simp only [List.map_cons, List.sum_cons, ih]
    omega

lemma sum_map_indicator (l : List PollOption) (x : Nat) :
    (l.map (fun o => if x == o.id then 1 else 0)).sum =
      (l.map (fun o => o.id)).count x := by
  induction l with
  | nil => simp
  | cons o os ih =>
    simp only [List.map_cons, List.sum_cons, List.count_cons, ih]
    by_cases h : x = o.id
    · subst h
      simp [Nat.add_comm]
    · have h' : ¬ o.id = x := fun hh => h hh.symm
      simp [h, h']

/-- Partition counting: when option ids are distinct and every vote's option is
among them, the per-option filtered counts sum to the number of votes. -/
lemma sum_option_counts (votes : List Vote) (opts : List PollOption)
    (hn : (opts.map (fun o => o.id)).Nodup)
    (hv : ∀ v ∈ votes, ∃ o ∈ opts, o.id = v.option_id) :
    (opts.map (fun o =>
      (votes.filter (fun w => w.option_id == o.id)).length)).sum =
      votes.length := by
  induction votes with
  | nil => simp
  | cons v vs ih =>
    have hv' : ∀ w ∈ vs, ∃ o ∈ opts, o.id = w.option_id :=
      fun w hw => hv w (List.mem_cons_of_mem _ hw)
    obtain ⟨o0, ho0, hid⟩ := hv v (List.mem_cons_self v vs)
    have hstep : ∀ o : PollOption,
        (List.filter (fun w => w.option_id == o.id) (v :: vs)).length =
          (if v.option_id == o.id then 1 else 0) +
            (vs.filter (fun w => w.option_id == o.id)).length := by
      intro o
      rw [List.filter_cons]
      by_cases h : v.option_id == o.id
      · simp [h, Nat.add_comm]
      · simp [h]
    calc (opts.map (fun o =>
          (List.filter (fun w => w.option_id == o.id) (v :: vs)).length)).sum
        = (opts.map (fun o => (if v.option_id == o.id then 1 else 0) +
            (vs.filter (fun w => w.option_id == o.id)).length)).sum := by
          exact congrArg List.sum (List.map_congr_left (fun o _ => hstep o))
      _ = (opts.map (fun o => if v.option_id == o.id then 1 else 0)).sum +
            (opts.map (fun o =>
              (vs.filter (fun w => w.option_id == o.id)).length)).sum :=
          sum_map_add _ _ _
      _ = (opts.map (fun o => o.id)).count v.option_id + vs.length := by
          rw [sum_map_indicator, ih hv']
      _ = 1 + vs.length := by
          rw [List.count_eq_one_of_mem hn (List.mem_map.mpr ⟨o0, ho0, hid⟩)]
      _ = (v :: vs).length := by
          simp [Nat.add_comm]

lemma filter_and_length (votes : List Vote) (pid oid : Nat) :
    (votes.filter (fun v => v.poll_id == pid && v.option_id == oid)).length =
      ((votes.filter (fun v => v.poll_id == pid)).filter
        (fun w => w.option_id == oid)).length := by
  induction votes with
  | nil => rfl
  | cons v vs ih =>
    by_cases h1 : v.poll_id == pid
    · by_cases h2 : v.option_id == oid
      · simp [List.filter_cons, h1, h2, ih]
      · simp [List.filter_cons, h1, h2, ih]
    · simp [List.filter_cons, h1, ih]

/-- C7 (amended) — for every store in which option ids are distinct and every
vote's option belongs to the vote's poll (`votesConsistent`, the invariant the
API vote route preserves but `submitVote` can break), the per-option
`vote_count` values of `get_poll_stats` sum exactly to `total_votes`. -/
theorem stats_sum_consistent (s : Store) (pid : Nat)
    (hn : (s.options.map (fun o => o.id)).Nodup)
    (hc : votesConsistent s = true) :
    ((get_poll_stats s pid).options.map (fun e => e.vote_count)).sum =
      (get_poll_stats s pid).total_votes := by
  have hsub : List.Sublist ((pollOptionsOf s pid).map (fun o => o.id))
      (s.options.map (fun o => o.id)) :=
    (List.filter_sublist _).map _
  have hn' : ((pollOptionsOf s pid).map (fun o => o.id)).Nodup := hn.sublist hsub
  have hv : ∀ v ∈ s.votes.filter (fun v => v.poll_id == pid),
      ∃ o ∈ pollOptionsOf s pid, o.id = v.option_id := by
    intro v hvmem
    obtain ⟨hvotes, hpid⟩ := List.mem_filter.mp hvmem
    unfold votesConsistent at hc
    have hall := (List.all_eq_true.mp hc) v hvotes
    obtain ⟨o, homem, hpred⟩ := List.any_eq_true.mp hall
    rw [Bool.and_eq_true, beq_iff_eq, beq_iff_eq] at hpred
    refine ⟨o, ?_, hpred.1⟩
    apply List.mem_filter.mpr
    refine ⟨homem, ?_⟩
    rw [beq_iff_eq, hpred.2]
    exact beq_iff_eq.mp hpid
  unfold get_poll_stats
  simp only
  rw [List.map_map]
  have hperm := ((List.perm_insertionSort optLe (pollOptionsOf s pid)).map
    ((fun e => e.vote_count) ∘ (fun o =>
      (⟨o.id, o.option_text, optionVoteCount s pid o.id⟩ : OptionStat)))).sum_eq
  rw [hperm]
  have hcong : (pollOptionsOf s pid).map ((fun e => e.vote_count) ∘ (fun o =>
      (⟨o.id, o.option_text, optionVoteCount s pid o.id⟩ : OptionStat))) =
      (pollOptionsOf s pid).map (fun o =>
        ((s.votes.filter (fun v => v.poll_id == pid)).filter
          (fun w => w.option_id == o.id)).length) :=
    List.map_congr_left (fun o _ => filter_and_length s.votes pid o.id)
  rw [hcong, sum_option_counts _ _ hn' hv]
  rfl

theorem stats_sum_consistent_witness :
    ((singleS1.options.map (fun o => o.id)).Nodup ∧
      votesConsistent singleS1 = true) ∧
    ((get_poll_stats singleS1 0).options.map (fun e => e.vote_count)).sum =
      (get_poll_stats singleS1 0).total_votes :=
  ⟨⟨by decide, by decide⟩, stats_sum_consistent singleS1 0 (by decide) (by decide)⟩

/-- The `option_order` of the option row with a given id (0 when absent). -/
def optionOrderOf (s : Store) (oid : Nat) : Nat :=
  ((findOption s oid).map (fun o => o.option_order)).getD 0

/-- With distinct ids, the primary-key lookup of a member's id returns that
member. -/
lemma find?_id_mem {l : List PollOption} {o : PollOption}
    (hn : (l.map (fun q => q.id)).Nodup) (ho : o ∈ l) :
    l.find? (fun q => q.id == o.id) = some o := by
  induction l with
  | nil => simp at ho
  | cons x xs ih =>
    rw [List.map_cons, List.nodup_cons] at hn
    by_cases hx : (x.id == o.id) = true
    · cases List.mem_cons.mp ho with
      | inl h =>
        subst h
        rw [List.find?_cons_of_pos _ (by simp)]
      | inr h =>
        exfalso
        have hmem : o.id ∈ xs.map (fun q => q.id) := List.mem_map.mpr ⟨o, h, rfl⟩
        exact hn.1 ((beq_iff_eq.mp hx) ▸ hmem)
    · have ho' : o ∈ xs := by
        cases List.mem_cons.mp ho with
        | inl h => exact absurd (by rw [h]; simp) hx
        | inr h => exact h
      rw [List.find?_cons]
      simp only [hx]
      exact ih hn.2 ho'

lemma optionOrderOf_mem {s : Store} {o : PollOption}
    (hn : (s.options.map (fun q => q.id)).Nodup) (ho : o ∈ s.options) :
    optionOrderOf s o.id = o.option_order := by
  unfold optionOrderOf findOption
  rw [find?_id_mem hn ho]
  rfl

/-- C6 — for a store with distinct option ids, `get_poll_stats` returns: the
count of the poll's vote rows as `total_votes`; the count of its `poll_views`
rows as `total_views`; the count of distinct non-null voter ids as
`unique_voters`; and per-option entries that are exactly one per option of the
poll (as a permutation of its option-id set), ordered by `option_order`, each
carrying the option's text and its vote count — options with no votes included
with `vote_count = 0`. -/
theorem get_poll_stats_spec (s : Store) (pid : Nat)
    (hn : (s.options.map (fun o => o.id)).Nodup) :
    (get_poll_stats s pid).total_votes =
      s.votes.countP (fun v => v.poll_id == pid) ∧
    (get_poll_stats s pid).total_views =
      s.views.countP (fun w => w.poll_id == pid) ∧
    (get_poll_stats s pid).unique_voters =
      ((s.votes.filter (fun v => v.poll_id == pid)).filterMap
        (fun v => v.user_id)).dedup.length ∧
    List.Perm ((get_poll_stats s pid).options.map (fun e => e.option_id))
      ((pollOptionsOf s pid).map (fun o => o.id)) ∧
    List.Pairwise (fun a b => optionOrderOf s a.option_id ≤ optionOrderOf s b.option_id)
      (get_poll_stats s pid).options ∧
    ∀ o ∈ pollOptionsOf s pid,
      (⟨o.id, o.option_text, optionVoteCount s pid o.id⟩ : OptionStat) ∈
        (get_poll_stats s pid).options := by
  have hmem : ∀ a ∈ List.insertionSort optLe (pollOptionsOf s pid),
      a ∈ s.options := by
    intro a ha
    exact List.mem_of_mem_filter
      (((List.perm_insertionSort optLe _).mem_iff).mp ha)
  refine ⟨?_, ?_, rfl, ?_, ?_, ?_⟩
  · unfold get_poll_stats pollVoteTotal
    rw [List.countP_eq_length_filter]
  · unfold get_poll_stats
    rw [List.countP_eq_length_filter]
  · unfold get_poll_stats
    simp only [List.map_map]
    exact (List.perm_insertionSort optLe (pollOptionsOf s pid)).map _
  · unfold get_poll_stats
    simp only
    have hsorted := List.sorted_insertionSort optLe (pollOptionsOf s pid)
    have hpair : List.Pairwise (fun a b : PollOption =>
        optionOrderOf s a.id ≤ optionOrderOf s b.id)
        (List.insertionSort optLe (pollOptionsOf s pid)) := by
      refine List.Pairwise.imp_of_mem ?_ hsorted
      intro a b ha hb hab
      rw [optionOrderOf_mem hn (hmem a ha), optionOrderOf_mem hn (hmem b hb)]
      exact hab
    exact List.Pairwise.map _ (fun a b hh => hh) hpair
  · intro o ho
    unfold get_poll_stats
    simp only
    exact List.mem_map_of_mem _
      (((List.perm_insertionSort optLe _).mem_iff).mpr ho)

theorem get_poll_stats_spec_witness :
    (singleS1.options.map (fun o => o.id)).Nodup ∧
    (get_poll_stats singleS1 0).total_votes =
      singleS1.votes.countP (fun v => v.poll_id == 0) :=
  ⟨by decide, (get_poll_stats_spec singleS1 0 (by decide)).1⟩

/-- C8 (amended) — the `poll_results` percentage is
`ROUND(vote_count / total_votes * 100, 2)` whenever the poll has at least one
vote; when the poll has zero votes the column is SQL `NULL` (`none`), not 0.
The `get_poll_stats` read nonetheless succeeds on a zero-vote poll with
`total_votes = 0` and every option's `vote_count = 0`. -/
theorem vote_percentage_spec (s : Store) (pid oid : Nat) :
    (pollVoteTotal s pid = 0 → vote_percentage s pid oid = none) ∧
    (0 < pollVoteTotal s pid →
      vote_percentage s pid oid = some (round2
        ((viewOptionVoteCount s oid : ℚ) / (pollVoteTotal s pid : ℚ) * 100))) ∧
    (pollVoteTotal s pid = 0 →
      (get_poll_stats s pid).total_votes = 0 ∧
      ∀ e ∈ (get_poll_stats s pid).options, e.vote_count = 0) := by
  refine ⟨?_, ?_, ?_⟩
  · intro h
    unfold vote_percentage
    rw [if_pos h]
  · intro h
    unfold vote_percentage
    rw [if_neg (by omega)]
  · intro h
    refine ⟨h, ?_⟩
    intro e he
    unfold get_poll_stats at he
    simp only at he
    obtain ⟨o, ho, hmk⟩ := List.mem_map.mp he
    rw [← hmk]
    show optionVoteCount s pid o.id = 0
    unfold optionVoteCount
    unfold pollVoteTotal at h
    rw [List.length_eq_zero] at h ⊢
    rw [List.filter_eq_nil_iff] at h ⊢
    intro v hv hb
    rw [Bool.and_eq_true] at hb
    exact h v hv hb.1

/-- A poll with one option and no votes at all. -/
def zeroVoteStore : Store :=
  ⟨2, [⟨0, "Empty poll", none, 1, none, true, false, false, 1⟩],
    [⟨1, 0, "Only", 0⟩], [], []⟩

/-- C8 (counterexample) — on a zero-vote poll the `poll_results` view yields a
`NULL` percentage, not the 0 the claim requires. -/
theorem vote_percentage_zero_null_cx :
    pollVoteTotal zeroVoteStore 0 = 0 ∧
    vote_percentage zeroVoteStore 0 1 = none ∧
    (none : Option ℚ) ≠ some 0 :=
  ⟨by decide, rfl, by simp⟩

theorem vote_percentage_spec_witness :
    pollVoteTotal zeroVoteStore 0 = 0 ∧
    vote_percentage zeroVoteStore 0 1 = none ∧
    (get_poll_stats zeroVoteStore 0).total_votes = 0 ∧
    0 < pollVoteTotal singleS1 0 ∧
    vote_percentage singleS1 0 1 = some (round2
      ((viewOptionVoteCount singleS1 1 : ℚ) /
        (pollVoteTotal singleS1 0 : ℚ) * 100)) :=
  ⟨by decide, (vote_percentage_spec zeroVoteStore 0 1).1 (by decide),
    ((vote_percentage_spec zeroVoteStore 0 1).2.2 (by decide)).1,
    by decide, (vote_percentage_spec singleS1 0 1).2.1 (by decide)⟩
